import Mathlib

/-!
Verification of the LadinoBot conversation-context subsystem.

This file gives a shallow embedding of the history store, context assembler,
model invoker, knowledge loader and translation fallback of the LadinoBot
repository (`ladinobot.py` and `claude_handler.py`), and proves the spec's
testable properties about them.
-/

/-- A conversation turn: a speaker role (`"user"` / `"assistant"`) and its text,
exactly the `{"role": ..., "content": ...}` dictionaries stored in
`conversation_histories` in `ladinobot.py`. -/
structure Turn where
  role : String
  content : String
deriving DecidableEq, Repr

/-- Telegram user identifiers (numeric). -/
abbrev UserId := Nat

/-- The process-wide `conversation_histories` dictionary, modelled as a total
function with default `[]`: the Python dict lazily inserts `[]` on first
access (`get_conversation_history`), so an absent key and an empty list are
observationally the same. -/
def Histories := UserId → List Turn

/-- The store at process start: no user has any history. -/
def empty_histories : Histories := fun _ => []

/-- `get_conversation_history(user_id)` from `ladinobot.py` (lines 94-98):
returns the user's history, initialising it to `[]` when absent. -/
def get_conversation_history (hs : Histories) (user_id : UserId) : List Turn :=
  hs user_id

/-- The list-level body of `update_conversation_history` (`ladinobot.py`
lines 100-109): append the new turn at the end, then `pop(0)` once if the
length exceeds 10. -/
def push_trim (history : List Turn) (role content : String) : List Turn :=
  let history := history ++ [⟨role, content⟩]
  if history.length > 10 then history.tail else history

/-- `update_conversation_history(user_id, role, content)` from `ladinobot.py`:
mutates only the given user's entry of the store, via `push_trim`. -/
def update_conversation_history (hs : Histories) (user_id : UserId)
    (role content : String) : Histories :=
  fun v =>
    if v = user_id then push_trim (get_conversation_history hs user_id) role content
    else hs v

/-- The two history updates performed by `handle_message` for one exchange
(`ladinobot.py` lines 242-243): first the user's turn, then the assistant's. -/
def handle_exchange (hs : Histories) (user_id : UserId)
    (user_msg bot_msg : String) : Histories :=
  update_conversation_history
    (update_conversation_history hs user_id "user" user_msg)
    user_id "assistant" bot_msg

/-- Run a sequence of exchanges for one user starting from the empty store. -/
def run_exchanges (user_id : UserId) (pairs : List (String × String)) : Histories :=
  pairs.foldl (fun hs p => handle_exchange hs user_id p.1 p.2) empty_histories

/-- The full chronological stream of turns generated by a list of exchanges:
for each exchange, the user turn followed by the assistant turn. -/
def all_turns (pairs : List (String × String)) : List Turn :=
  pairs.foldr (fun p acc => ⟨"user", p.1⟩ :: ⟨"assistant", p.2⟩ :: acc) []

theorem all_turns_length (pairs : List (String × String)) :
    (all_turns pairs).length = 2 * pairs.length := by
  induction pairs with
  | nil => rfl
  | cons p ps ih => simp [all_turns] at ih ⊢; omega

theorem length_rtake_le (n : Nat) (l : List α) : (List.rtake l n).length ≤ n := by
  simp [List.rtake]; omega

theorem rtake_of_length_le (n : Nat) (l : List α) (h : l.length ≤ n) :
    List.rtake l n = l := by
  have h0 : l.length - n = 0 := by omega
  simp [List.rtake, h0]

/-- Keeping the last `n` elements, appending, and keeping the last `n` again
is the same as keeping the last `n` of the whole concatenation. -/
theorem rtake_append_rtake (n : Nat) (l m : List α) :
    List.rtake (List.rtake l n ++ m) n = List.rtake (l ++ m) n := by
  by_cases hn : n ≤ l.length
  · show List.rtake (l.drop (l.length - n) ++ m) n = _
    rw [← List.drop_append_of_le_length (show l.length - n ≤ l.length by omega)]
    show List.drop _ _ = _
    rw [List.drop_drop]
    congr 1
    simp only [List.length_drop, List.length_append]
    omega
  · rw [rtake_of_length_le n l (by omega)]

/-- `push_trim` on a history within the bound keeps exactly the last 10 turns
of the extended history. -/
theorem push_trim_eq_rtake (h : List Turn) (r c : String) (hh : h.length ≤ 10) :
    push_trim h r c = List.rtake (h ++ [Turn.mk r c]) 10 := by
  simp only [push_trim, List.rtake]
  by_cases h10 : h.length = 10
  · have hlen : (h ++ [Turn.mk r c]).length = 11 := by simp [h10]
    rw [if_pos (show (h ++ [Turn.mk r c]).length > 10 by omega), hlen]
    rw [show (11 : Nat) - 10 = 1 from rfl, List.drop_one]
  · have hlen : (h ++ [Turn.mk r c]).length = h.length + 1 := by simp
    rw [if_neg (show ¬ (h ++ [Turn.mk r c]).length > 10 by omega)]
    have h0 : (h ++ [Turn.mk r c]).length - 10 = 0 := by omega
    rw [h0, List.drop_zero]

theorem update_self (hs : Histories) (u : UserId) (r c : String) :
    get_conversation_history (update_conversation_history hs u r c) u
      = push_trim (get_conversation_history hs u) r c := by
  simp [get_conversation_history, update_conversation_history]

theorem handle_exchange_self (hs : Histories) (u : UserId) (um am : String)
    (h : (hs u).length ≤ 10) :
    (handle_exchange hs u um am) u
      = List.rtake ((hs u) ++ [Turn.mk "user" um, Turn.mk "assistant" am]) 10 := by
  have e2 : (handle_exchange hs u um am) u
      = push_trim (get_conversation_history
          (update_conversation_history hs u "user" um) u) "assistant" am := by
    show get_conversation_history
      (update_conversation_history (update_conversation_history hs u "user" um)
        u "assistant" am) u = _
    rw [update_self]
  have e1 : get_conversation_history (update_conversation_history hs u "user" um) u
      = List.rtake ((hs u) ++ [Turn.mk "user" um]) 10 := by
    rw [update_self]
    exact push_trim_eq_rtake (hs u) "user" um h
  rw [e2, e1, push_trim_eq_rtake _ _ _ (length_rtake_le 10 _)]
  rw [rtake_append_rtake, List.append_assoc]
  rfl

/-- Generalised invariant: folding exchanges over a store whose entry for the
user is within the bound yields the last 10 turns of that entry extended by
the whole stream of new turns. -/
theorem run_from (user_id : UserId) (pairs : List (String × String)) :
    ∀ hs : Histories, (hs user_id).length ≤ 10 →
      (pairs.foldl (fun s p => handle_exchange s user_id p.1 p.2) hs) user_id
        = List.rtake ((hs user_id) ++ all_turns pairs) 10 := by
  induction pairs with
  | nil =>
    intro hs h
    simp only [List.foldl_nil, all_turns, List.foldr_nil, List.append_nil]
    exact (rtake_of_length_le 10 _ h).symm
  | cons p ps ih =>
    intro hs h
    simp only [List.foldl_cons]
    rw [ih (handle_exchange hs user_id p.1 p.2)
          (by rw [handle_exchange_self hs user_id p.1 p.2 h]
              exact length_rtake_le _ _)]
    rw [handle_exchange_self hs user_id p.1 p.2 h]
    rw [rtake_append_rtake, List.append_assoc]
    rfl

/-- C1: for every user starting from an empty history, after N exchanges
(each appending the user turn then the assistant turn via
`update_conversation_history`), the stored history length equals
`min (2 * N) 10`, and the stored sequence is exactly the most recent turns of
the chronological stream, oldest evicted first. -/
theorem C1_history_window_fifo (user_id : UserId) (pairs : List (String × String)) :
    (get_conversation_history (run_exchanges user_id pairs) user_id).length
        = min (2 * pairs.length) 10
    ∧ get_conversation_history (run_exchanges user_id pairs) user_id
        = List.rtake (all_turns pairs) 10 := by
  have hrun : get_conversation_history (run_exchanges user_id pairs) user_id
      = List.rtake (all_turns pairs) 10 := by
    show (pairs.foldl (fun s p => handle_exchange s user_id p.1 p.2)
            empty_histories) user_id = _
    rw [run_from user_id pairs empty_histories (by simp [empty_histories])]
    rfl
  refine ⟨?_, hrun⟩
  rw [hrun]
  have hlen := all_turns_length pairs
  simp only [List.rtake, List.length_drop]
  omega

/-- C4 counterexample: for a stored sequence of starting length 11 (above the
bound), `update_conversation_history` pops only one element from the front,
so the resulting length is 11, not ≤ 10 — the claim's "resulting length is
always ≤ W" fails for arbitrary starting lengths. -/
theorem C4_counterexample :
    ¬ ((get_conversation_history
          (update_conversation_history
            (fun _ => List.replicate 11 ⟨"user", "x"⟩) 0 "user" "y") 0).length ≤ 10) := by
  decide

/-- C4 (amended): `update_conversation_history` pushes the new turn to the end
of the user's sequence and removes one turn from the front when the length
exceeds 10; for every starting sequence already within the bound (length ≤ 10)
the result is the last 10 turns of the extended sequence, hence of length ≤ 10,
and other users' entries are untouched. -/
theorem C4_append_trim (hs : Histories) (user_id : UserId) (role content : String)
    (h : (get_conversation_history hs user_id).length ≤ 10) :
    get_conversation_history (update_conversation_history hs user_id role content) user_id
        = List.rtake ((get_conversation_history hs user_id) ++ [Turn.mk role content]) 10
    ∧ (get_conversation_history
        (update_conversation_history hs user_id role content) user_id).length ≤ 10
    ∧ ∀ v, v ≠ user_id →
        get_conversation_history (update_conversation_history hs user_id role content) v
          = get_conversation_history hs v := by
  have h1 : get_conversation_history
      (update_conversation_history hs user_id role content) user_id
      = List.rtake ((get_conversation_history hs user_id) ++ [Turn.mk role content]) 10 := by
    rw [update_self]
    exact push_trim_eq_rtake _ _ _ h
  refine ⟨h1, ?_, ?_⟩
  · rw [h1]; exact length_rtake_le _ _
  · intro v hv
    simp [get_conversation_history, update_conversation_history, hv]

theorem C4_append_trim_witness :
    (get_conversation_history empty_histories 7).length ≤ 10
    ∧ (get_conversation_history (update_conversation_history empty_histories 7 "user" "ola") 7
          = List.rtake
              ((get_conversation_history empty_histories 7) ++ [Turn.mk "user" "ola"]) 10
      ∧ (get_conversation_history
          (update_conversation_history empty_histories 7 "user" "ola") 7).length ≤ 10
      ∧ ∀ v, v ≠ 7 →
          get_conversation_history
              (update_conversation_history empty_histories 7 "user" "ola") v
            = get_conversation_history empty_histories v) :=
  ⟨by decide, C4_append_trim empty_histories 7 "user" "ola" (by decide)⟩

/-- One element of an Anthropic-style `content` array: a text block with an
optional `cache_control` annotation (`some "ephemeral"` when the block carries
`"cache_control": ephemeral` in `claude_handler.py`). -/
structure ContentBlock where
  type : String
  text : String
  cache_control : Option String
deriving DecidableEq, Repr

/-- One message of the list sent to the Claude API: a role and a content
array of blocks. -/
structure Message where
  role : String
  content : List ContentBlock
deriving DecidableEq, Repr

/-- The `<knowledge_base>` text blob built by `_prepare_knowledge_content`
(`claude_handler.py` lines 47-51): each resource wrapped in an XML tag named
after it, accumulated in mapping order. -/
def knowledge_text (resources : List (String × String)) : String :=
  (resources.foldl
    (fun acc rc => acc ++ "<" ++ rc.1 ++ ">\n" ++ rc.2 ++ "\n</" ++ rc.1 ++ ">\n")
    "<knowledge_base>\n") ++ "</knowledge_base>"

/-- `_prepare_knowledge_content` (`claude_handler.py` lines 42-63): the
knowledge blob as a synthetic user-role message whose single text block is
cache-tagged `ephemeral`. -/
def prepare_knowledge_content (resources : List (String × String)) : Message :=
  { role := "user"
    content := [{ type := "text", text := knowledge_text resources,
                  cache_control := some "ephemeral" }] }

/-- Python slice `lst[-(k):]` as used on the history
(`conversation_history[-(self.history_window - 1):]`): for `k > 0` the last
`k` elements; for `k = 0` the slice `lst[-0:] = lst[0:]` is the whole list. -/
def py_slice_last (k : Nat) (l : List α) : List α :=
  if k = 0 then l else List.rtake l k

/-- Formatting of one stored history turn for the Claude API
(`claude_handler.py` lines 107-115): the role is preserved and the content
becomes a single un-tagged text block. -/
def format_history_message (t : Turn) : Message :=
  { role := t.role
    content := [{ type := "text", text := t.content, cache_control := none }] }

/-- The trailing message built from the current user input
(`claude_handler.py` lines 118-126): a user-role turn whose text is the new
message prefixed with `"Current message: "`. -/
def current_message_turn (user_message : String) : Message :=
  { role := "user"
    content := [{ type := "text", text := "Current message: " ++ user_message,
                  cache_control := none }] }

/-- The message-list assembly inside `ClaudeHandler.get_response`
(`claude_handler.py` lines 100-126): cached knowledge first, then the last
`history_window - 1` history turns (only when the history is non-empty), then
the current message. -/
def assemble_messages (cached_knowledge : Message) (history_window : Nat)
    (conversation_history : List Turn) (user_message : String) : List Message :=
  let formatted_messages := [cached_knowledge]
  let formatted_messages :=
    if conversation_history.isEmpty then formatted_messages
    else formatted_messages
      ++ (py_slice_last (history_window - 1) conversation_history).map
          format_history_message
  formatted_messages ++ [current_message_turn user_message]

/-- The `usage` object of an Anthropic API response: `input_tokens` and
`output_tokens` are always present, the two cache counters are optional
(read with `getattr(..., 0)` in `claude_handler.py` lines 142-143). -/
structure Usage where
  input_tokens : Nat
  output_tokens : Nat
  cache_read_input_tokens : Option Nat
  cache_creation_input_tokens : Option Nat
deriving DecidableEq, Repr

/-- A well-formed Anthropic API response: a content array and usage. -/
structure ApiResponse where
  content : List ContentBlock
  usage : Usage
deriving DecidableEq, Repr

/-- Outcome of one `client.messages.create` call: either a response object or
a raised exception (carrying its message). -/
inductive ProviderResult where
  | ok (response : ApiResponse)
  | exc (msg : String)
deriving DecidableEq, Repr

/-- The request object passed to `client.messages.create` by
`claude_handler.py`: model name, token cap, temperature, the system
instruction as its own parameter, and the assembled message list. -/
structure ClaudeRequest where
  model : String
  max_tokens : Nat
  temperature : Nat
  system : List ContentBlock
  messages : List Message
deriving DecidableEq, Repr

/-- The literal keyword arguments of the `client.messages.create` calls
(`claude_handler.py` lines 72-79 and 129-136). -/
def make_claude_request (system_prompt : String) (max_tokens : Nat)
    (messages : List Message) : ClaudeRequest :=
  { model := "claude-3-5-sonnet-20241022"
    max_tokens := max_tokens
    temperature := 1
    system := [{ type := "text", text := system_prompt, cache_control := none }]
    messages := messages }

/-- The fixed fallback apology string of `ClaudeHandler.get_response`
(`claude_handler.py` lines 158 and 162). -/
def fallback_reply : String :=
  "Te rogo diskulpas, no esta kaminando bueno. Aprova otruna vez."

/-- The `usage_stats` dictionary assembled at `claude_handler.py` lines
139-144: the two optional cache counters default to 0 via `getattr`. -/
def collect_usage_stats (u : Usage) : List (String × Nat) :=
  [("input_tokens", u.input_tokens),
   ("output_tokens", u.output_tokens),
   ("cache_read", u.cache_read_input_tokens.getD 0),
   ("cache_created", u.cache_creation_input_tokens.getD 0)]

/-- `ClaudeHandler.get_response` (`claude_handler.py` lines 87-162): assembles
the messages, calls the provider, and returns the reply text with usage stats;
a raised exception yields the fallback reply with empty stats, an empty
content array yields the fallback reply with the parsed stats. -/
def get_response (provider : ClaudeRequest → ProviderResult)
    (system_prompt : String) (cached_knowledge : Message) (history_window : Nat)
    (user_message : String) (conversation_history : List Turn) :
    String × List (String × Nat) :=
  let formatted_messages :=
    assemble_messages cached_knowledge history_window conversation_history user_message
  match provider (make_claude_request system_prompt 2048 formatted_messages) with
  | ProviderResult.exc _ => (fallback_reply, [])
  | ProviderResult.ok response =>
    let usage_stats := collect_usage_stats response.usage
    match response.content with
    | [] => (fallback_reply, usage_stats)
    | c :: _ => (c.text, usage_stats)

/-- A knowledge directory, as seen by `_load_knowledge_resources`: `none` when
the directory does not exist; otherwise the `*.txt` files as (stem, read
outcome) pairs, a `none` outcome meaning the read raised. -/
def KnowledgeDir := Option (List (String × Option String))

/-- `_load_knowledge_resources` (`claude_handler.py` lines 164-185): missing
directory gives an empty mapping; each readable file contributes its stripped
content under its stem; a file whose read raises is skipped. -/
def load_knowledge_resources (dir : KnowledgeDir) : List (String × String) :=
  match dir with
  | none => []
  | some files =>
    files.foldl
      (fun resources f =>
        match f.2 with
        | some content => resources ++ [(f.1, content.trim)]
        | none => resources)
      []

/-- `_initialize_cache` (`claude_handler.py` lines 65-85): one provider call
with `max_tokens = 1` and the cached knowledge as sole message; on exception
it logs and re-raises (modelled as `Except.error`). -/
def prime_cache (provider : ClaudeRequest → ProviderResult)
    (system_prompt : String) (cached_knowledge : Message) : Except String Unit :=
  match provider (make_claude_request system_prompt 1 [cached_knowledge]) with
  | ProviderResult.exc e => Except.error e
  | ProviderResult.ok _ => Except.ok ()

/-- The state built by `ClaudeHandler.__init__` when construction succeeds. -/
structure HandlerState where
  system_prompt : String
  history_window : Nat
  knowledge_resources : List (String × String)
  cached_knowledge : Message
deriving Repr

/-- `ClaudeHandler.__init__` (`claude_handler.py` lines 15-40): loads the
knowledge resources, prepares the cached knowledge block, then performs the
cache-priming call; an exception there propagates out of the constructor. -/
def handler_init (provider : ClaudeRequest → ProviderResult)
    (system_prompt : String) (history_window : Nat) (knowledge_dir : KnowledgeDir) :
    Except String HandlerState :=
  let resources := load_knowledge_resources knowledge_dir
  let cached := prepare_knowledge_content resources
  match prime_cache provider system_prompt cached with
  | Except.error e => Except.error e
  | Except.ok _ =>
    Except.ok { system_prompt := system_prompt, history_window := history_window,
                knowledge_resources := resources, cached_knowledge := cached }

/-- The `messages` payload of `get_openai_response` (`ladinobot.py` lines
116-120): the system prompt as the leading system-role message, then the
stored history, then the user message — the OpenAI chat API has no separate
system parameter, so the instruction rides inside the message list. -/
def openai_messages (system_prompt : String) (history : List Turn)
    (user_message : String) : List Turn :=
  Turn.mk "system" system_prompt :: (history ++ [Turn.mk "user" user_message])

/-- Outcome of `client.chat.completions.create` plus the attribute access
`response.choices[0].message.content`: either the extracted text or a raised
exception (`AttributeError` included, both are caught alike). -/
inductive OpenAIResult where
  | ok (content : String)
  | exc (msg : String)
deriving DecidableEq, Repr

/-- The fixed fallback apology of `get_openai_response`
(`ladinobot.py` lines 141 and 144). -/
def openai_fallback : String :=
  "Lo siento, akontesyo un falta. Por favor, intentalo de muevo."

/-- `get_openai_response` (`ladinobot.py` lines 111-144): builds the message
payload from the user's stored history, calls the provider, and converts any
exception into the fixed fallback string. -/
def get_openai_response (provider : List Turn → OpenAIResult)
    (system_prompt : String) (hs : Histories) (user_id : UserId)
    (user_message : String) : String :=
  let history := get_conversation_history hs user_id
  match provider (openai_messages system_prompt history user_message) with
  | OpenAIResult.ok content => content
  | OpenAIResult.exc _ => openai_fallback

/-- The JSON body of a translation API response: optionally a `translation`
field (read with `data.get("translation")`). -/
structure TransBody where
  translation : Option String
deriving DecidableEq, Repr

/-- Outcome of the `requests.post` call in `translate`: a raised
`RequestException`, or an HTTP response with a status code and a parsed body
(`none` body when `.json()` raises `ValueError`). -/
inductive HttpOutcome where
  | reqError (msg : String)
  | response (status : Nat) (body : Option TransBody)
deriving DecidableEq, Repr

/-- `response.raise_for_status()` raises `HTTPError` (a subclass of
`RequestException`) exactly for 4xx and 5xx status codes. -/
def raises_for_status (status : Nat) : Bool :=
  decide (400 ≤ status) && decide (status < 600)

/-- `translate` (`ladinobot.py` lines 146-204): unknown language pair,
missing/empty token, raised request exception (including `raise_for_status`
on an error status), unparsable body, missing (or falsy) `translation` field
— every failure path returns the input text unchanged; only a present,
non-empty `translation` value is returned. (Namespaced because Mathlib already
declares a root `translate`.) -/
def Bot.translate (text src_lang : String) (api_token : Option String)
    (outcome : HttpOutcome) : String :=
  let tgt_lang : Option String :=
    if src_lang = "es" then some "lad"
    else if src_lang = "lad" then some "es"
    else none
  match tgt_lang with
  | none => text
  | some _ =>
    match api_token with
    | none => text
    | some tok =>
      if tok = "" then text
      else
        match outcome with
        | HttpOutcome.reqError _ => text
        | HttpOutcome.response status body =>
          if raises_for_status status then text
          else
            match body with
            | none => text
            | some data =>
              match data.translation with
              | none => text
              | some translated_text =>
                if translated_text = "" then text else translated_text

/-- The assembled message list of `get_response`, written as head plus tail:
the cached knowledge block, then the formatted history slice, then the
current-message turn. -/
theorem assemble_messages_eq (ck : Message) (hist : List Turn) (msg : String) :
    assemble_messages ck 10 hist msg
      = ck :: ((py_slice_last 9 hist).map format_history_message
                ++ [current_message_turn msg]) := by
  cases hist with
  | nil => rfl
  | cons a t => simp [assemble_messages]

theorem py_slice_last_subset (k : Nat) (l : List α) : py_slice_last k l ⊆ l := by
  unfold py_slice_last
  by_cases hk : k = 0
  · simp [hk]
  · simp only [hk, if_false, List.rtake]
    exact List.drop_subset _ _

/-- C2 counterexample: the final turn of the assembled request is not the new
user message itself — its text is prefixed with `"Current message: "` by
`get_response`, so the claim's "the new user message as the final turn" fails
as stated. -/
theorem C2_counterexample :
    (assemble_messages (prepare_knowledge_content [("a", "X")]) 10
        [Turn.mk "user" "hola"] "Hi").getLast?
      ≠ some (Message.mk "user" [ContentBlock.mk "text" "Hi" none]) := by
  decide

/-- C2 (amended): the assembled request is ordered as the cache-tagged
knowledge block (a synthetic user-role turn), then the most recent
`W - 1 = 9` history turns oldest first with their original roles, then a
user-role turn carrying the new user message prefixed with
`"Current message: "`; the total number of turns is at most `W + 1 = 11`. -/
theorem C2_assembly_order (resources : List (String × String))
    (hist : List Turn) (msg : String) :
    assemble_messages (prepare_knowledge_content resources) 10 hist msg
        = prepare_knowledge_content resources
            :: ((List.rtake hist 9).map format_history_message
                ++ [current_message_turn msg])
    ∧ (assemble_messages (prepare_knowledge_content resources) 10 hist msg).length ≤ 11
    ∧ (prepare_knowledge_content resources).role = "user"
    ∧ (prepare_knowledge_content resources).content.map ContentBlock.cache_control
        = [some "ephemeral"]
    ∧ (∀ t, (format_history_message t).role = t.role)
    ∧ (current_message_turn msg).role = "user"
    ∧ (current_message_turn msg).content.map ContentBlock.text
        = ["Current message: " ++ msg] := by
  have hslice : py_slice_last 9 hist = List.rtake hist 9 := by
    simp [py_slice_last]
  have heq := assemble_messages_eq (prepare_knowledge_content resources) hist msg
  rw [hslice] at heq
  refine ⟨heq, ?_, rfl, rfl, fun t => rfl, rfl, rfl⟩
  rw [heq]
  have h9 := length_rtake_le 9 hist
  simp only [List.length_cons, List.length_append, List.length_map,
    List.length_singleton, List.length_nil]
  omega

/-- C3: the model invoker never raises to its caller — a provider exception
yields the fixed fallback apology with empty usage stats, an empty content
array yields the same fallback with the parsed usage stats, missing optional
cache counters default to 0; the OpenAI-path invoker likewise converts any
exception into its fixed fallback string. -/
theorem C3_invoker_fallback (e : String) (u : Usage) (sp : String) (ck : Message)
    (w : Nat) (msg : String) (hist : List Turn) (i o : Nat)
    (hs : Histories) (uid : UserId) (err : String) :
    get_response (fun _ => ProviderResult.exc e) sp ck w msg hist
        = (fallback_reply, [])
    ∧ get_response (fun _ => ProviderResult.ok (ApiResponse.mk [] u)) sp ck w msg hist
        = (fallback_reply, collect_usage_stats u)
    ∧ collect_usage_stats (Usage.mk i o none none)
        = [("input_tokens", i), ("output_tokens", o),
           ("cache_read", 0), ("cache_created", 0)]
    ∧ get_openai_response (fun _ => OpenAIResult.exc err) sp hs uid msg
        = openai_fallback :=
  ⟨rfl, rfl, rfl, rfl⟩

/-- C5 counterexample: with empty history and message `"Hello"`, the
assembled request is not `[knowledge block, "Hello"]` — the second turn's
text is `"Current message: Hello"`, not the user's message itself. -/
theorem C5_counterexample :
    assemble_messages (prepare_knowledge_content [("a", "X")]) 10 [] "Hello"
      ≠ [prepare_knowledge_content [("a", "X")],
         Message.mk "user" [ContentBlock.mk "text" "Hello" none]] := by
  decide

/-- C5 (amended): for an empty history and message `"Hello"`, the context
assembler produces exactly the two-element request consisting of the
knowledge block and a user-role turn whose text is
`"Current message: Hello"`; the history step contributes nothing. -/
theorem C5_empty_history_request (resources : List (String × String)) :
    assemble_messages (prepare_knowledge_content resources) 10 [] "Hello"
        = [prepare_knowledge_content resources, current_message_turn "Hello"]
    ∧ (current_message_turn "Hello").role = "user"
    ∧ (current_message_turn "Hello").content.map ContentBlock.text
        = ["Current message: Hello"] :=
  ⟨rfl, rfl, rfl⟩

/-- C6 counterexample: "non-2xx status" is too broad — `raise_for_status`
raises only for 4xx/5xx, so a final 3xx response (status 302) whose body
parses and carries a truthy `translation` field makes `translate` return the
translated text, not the original input. -/
theorem C6_counterexample :
    Bot.translate "me plaze muncho" "es" (some "tok")
        (HttpOutcome.response 302 (some (TransBody.mk (some "me plaze"))))
      = "me plaze"
    ∧ "me plaze" ≠ "me plaze muncho" := by
  constructor
  · rfl
  · decide

/-- C6 (amended): `translate` degrades to pass-through — a raised request
exception (transport error), an error status (4xx/5xx, e.g. the claim's 500,
exactly those on which `raise_for_status` raises), an unparsable body, or a
body missing the `translation` field all return the original input text
unchanged (and `translate` is a total function, so it never raises). -/
theorem C6_translate_passthrough (text src_lang : String)
    (api_token : Option String) :
    (∀ e, Bot.translate text src_lang api_token (HttpOutcome.reqError e) = text)
    ∧ (∀ status body, 400 ≤ status → status < 600 →
        Bot.translate text src_lang api_token (HttpOutcome.response status body)
          = text)
    ∧ (∀ status, Bot.translate text src_lang api_token
        (HttpOutcome.response status (some (TransBody.mk none))) = text)
    ∧ (∀ status, Bot.translate text src_lang api_token
        (HttpOutcome.response status none) = text) := by
  refine ⟨?_, ?_, ?_, ?_⟩
  · intro e
    simp only [Bot.translate]
    split
    · rfl
    · cases api_token with
      | none => rfl
      | some tok => by_cases ht : tok = "" <;> simp [ht]
  · intro status body h4 h6
    have hb : raises_for_status status = true := by
      simp only [raises_for_status, Bool.and_eq_true, decide_eq_true_eq]
      omega
    simp only [Bot.translate]
    split
    · rfl
    · cases api_token with
      | none => rfl
      | some tok => by_cases ht : tok = "" <;> simp [ht, hb]
  · intro status
    simp only [Bot.translate]
    split
    · rfl
    · cases api_token with
      | none => rfl
      | some tok =>
        by_cases ht : tok = "" <;>
          by_cases hb : raises_for_status status <;> simp [ht, hb]
  · intro status
    simp only [Bot.translate]
    split
    · rfl
    · cases api_token with
      | none => rfl
      | some tok =>
        by_cases ht : tok = "" <;>
          by_cases hb : raises_for_status status <;> simp [ht, hb]

theorem C6_translate_witness :
    (400 ≤ 500 ∧ 500 < 600)
    ∧ Bot.translate "ke haber" "lad" (some "tok")
        (HttpOutcome.response 500 (some (TransBody.mk (some "what news"))))
        = "ke haber" :=
  ⟨⟨by decide, by decide⟩,
   (C6_translate_passthrough "ke haber" "lad" (some "tok")).2.1 500
     (some (TransBody.mk (some "what news"))) (by decide) (by decide)⟩

/-- C7: the knowledge block is a deterministic pure function of the loaded
resource mapping — any two builds from equal mappings give byte-identical
text and identical cache-tagged messages, so the block is byte-stable across
requests within a process. -/
theorem C7_cache_stability (r1 r2 : List (String × String)) (h : r1 = r2) :
    knowledge_text r1 = knowledge_text r2
    ∧ prepare_knowledge_content r1 = prepare_knowledge_content r2
    ∧ (prepare_knowledge_content r1).content.map ContentBlock.cache_control
        = [some "ephemeral"] := by
  subst h
  exact ⟨rfl, rfl, rfl⟩

theorem C7_cache_stability_witness :
    [("greetings", "ola")] = [("greetings", "ola")]
    ∧ (knowledge_text [("greetings", "ola")] = knowledge_text [("greetings", "ola")]
      ∧ prepare_knowledge_content [("greetings", "ola")]
          = prepare_knowledge_content [("greetings", "ola")]
      ∧ (prepare_knowledge_content [("greetings", "ola")]).content.map
            ContentBlock.cache_control = [some "ephemeral"]) :=
  ⟨rfl, C7_cache_stability [("greetings", "ola")] [("greetings", "ola")] rfl⟩

/-- C8 counterexample: in the OpenAI-path invoker (`get_openai_response`),
the system instruction is the leading element of the message list itself —
it is interleaved as a system-role turn, not passed on a separate channel. -/
theorem C8_counterexample :
    (openai_messages "sys" [] "hi").head? = some (Turn.mk "system" "sys")
    ∧ Turn.mk "system" "sys" ∈ openai_messages "sys" [] "hi" := by
  constructor
  · rfl
  · simp [openai_messages]

/-- C8 (amended): in the Claude handler the system instruction is passed via
the dedicated `system` request parameter and no turn of the assembled message
list has role `"system"` (given the stored history only holds user/assistant
turns); in the OpenAI handler, by contrast, the system prompt is sent as the
leading system-role message inside the message list. -/
theorem C8_system_channel (sp : String) (resources : List (String × String))
    (hist : List Turn) (msg : String)
    (hroles : ∀ t ∈ hist, t.role = "user" ∨ t.role = "assistant") :
    (make_claude_request sp 2048
        (assemble_messages (prepare_knowledge_content resources) 10 hist msg)).system
      = [ContentBlock.mk "text" sp none]
    ∧ (∀ m ∈ (make_claude_request sp 2048
          (assemble_messages (prepare_knowledge_content resources) 10 hist msg)).messages,
        m.role ≠ "system")
    ∧ (openai_messages sp hist msg).head? = some (Turn.mk "system" sp) := by
  refine ⟨rfl, ?_, rfl⟩
  intro m hm
  have hmm : m ∈ assemble_messages (prepare_knowledge_content resources) 10 hist msg :=
    hm
  rw [assemble_messages_eq] at hmm
  simp only [List.mem_cons, List.mem_append, List.mem_map,
    List.not_mem_nil, or_false] at hmm
  rcases hmm with h1 | ⟨t, ht, h2⟩ | h3
  · subst h1; simp [prepare_knowledge_content]
  · subst h2
    rcases hroles t (py_slice_last_subset 9 hist ht) with hr | hr <;>
      simp [format_history_message, hr]
  · subst h3; simp [current_message_turn]

theorem C8_system_channel_witness :
    (∀ t ∈ [Turn.mk "user" "ola", Turn.mk "assistant" "shalom"],
        t.role = "user" ∨ t.role = "assistant")
    ∧ ((make_claude_request "be Estreya" 2048
          (assemble_messages (prepare_knowledge_content [("a", "X")]) 10
            [Turn.mk "user" "ola", Turn.mk "assistant" "shalom"] "ke haber")).system
        = [ContentBlock.mk "text" "be Estreya" none]
      ∧ (∀ m ∈ (make_claude_request "be Estreya" 2048
            (assemble_messages (prepare_knowledge_content [("a", "X")]) 10
              [Turn.mk "user" "ola", Turn.mk "assistant" "shalom"] "ke haber")).messages,
          m.role ≠ "system")
      ∧ (openai_messages "be Estreya"
            [Turn.mk "user" "ola", Turn.mk "assistant" "shalom"] "ke haber").head?
          = some (Turn.mk "system" "be Estreya")) :=
  ⟨by decide,
   C8_system_channel "be Estreya" [("a", "X")]
     [Turn.mk "user" "ola", Turn.mk "assistant" "shalom"] "ke haber" (by decide)⟩

theorem load_knowledge_foldl (files : List (String × Option String))
    (acc : List (String × String)) :
    files.foldl
        (fun resources f =>
          match f.2 with
          | some content => resources ++ [(f.1, content.trim)]
          | none => resources) acc
      = acc ++ files.filterMap (fun f => f.2.map (fun c => (f.1, c.trim))) := by
  induction files generalizing acc with
  | nil => simp
  | cons f fs ih =>
    cases hf : f.2 with
    | none =>
      simp only [List.foldl_cons, hf, List.filterMap_cons, Option.map_none']
      exact ih acc
    | some c =>
      simp only [List.foldl_cons, hf, List.filterMap_cons, Option.map_some']
      rw [ih (acc ++ [(f.1, c.trim)])]
      simp

/-- C9: a missing knowledge directory yields an empty mapping (without
raising); for an existing directory the loader returns exactly the
successfully read files (stripped, keyed by stem), and one file whose read
fails is skipped without disturbing the entries from the other files. -/
theorem C9_loader_resilience (files : List (String × Option String))
    (stem : String) (pre post : List (String × Option String)) :
    load_knowledge_resources none = []
    ∧ load_knowledge_resources (some files)
        = files.filterMap (fun f => f.2.map (fun c => (f.1, c.trim)))
    ∧ load_knowledge_resources (some (pre ++ (stem, none) :: post))
        = load_knowledge_resources (some (pre ++ post)) := by
  refine ⟨rfl, ?_, ?_⟩
  · simpa using load_knowledge_foldl files []
  · show List.foldl _ [] _ = List.foldl _ [] _
    rw [load_knowledge_foldl, load_knowledge_foldl]
    simp

/-- C10: constructing the Claude handler propagates a failure of the one-time
cache-priming call — `_initialize_cache` re-raises the provider exception, so
`__init__` raises rather than degrading to a fallback; only a successful
priming call yields a constructed handler. -/
theorem C10_ctor_propagates (sp : String) (w : Nat) (dir : KnowledgeDir)
    (e : String) (r : ApiResponse) :
    handler_init (fun _ => ProviderResult.exc e) sp w dir = Except.error e
    ∧ handler_init (fun _ => ProviderResult.ok r) sp w dir
        = Except.ok (HandlerState.mk sp w (load_knowledge_resources dir)
            (prepare_knowledge_content (load_knowledge_resources dir))) :=
  ⟨rfl, rfl⟩
